import Mathlib

/-!
Shallow embedding of `src/lzma/args.c` (argument parsing and compression-settings
resolution of the xz command-line front end), together with theorems checking the
natural-language specification against it.

Modelling conventions:
* The file-scope mutable globals of args.c (lines 28-57) form one record, `Coder`;
  every C function becomes a pure function threading that record.
* Fatal exits (`my_exit(ERROR)`, `show_help`, `show_version`) become the `.error`
  side of `Except Fatal`.
* `getopt_long` is an external collaborator: the option stream it yields is
  modelled as a list of already-recognized options (`CliOpt`), one per `case`
  label of the switch in `parse_real` (lines 176-409).  Likewise
  `str_to_uint64` (util.c) already validated numeric arguments, so `.memory`
  and `.threads` carry the parsed number.
* liblzma calls (`lzma_lzma_preset`, `lzma_memusage_encoder`,
  `lzma_memusage_decoder`) are external: the memory-usage cost models are taken
  as function parameters, and the preset builder produces an opaque options
  token `FilterOptions.presetOpts level`.
* The C filter array `opt_filters` with its `filter_count` and terminating
  sentinel (`LZMA_VLI_UNKNOWN`, line 483) is modelled as a Lean list whose
  length is `filter_count`; the sentinel is implicit in the list's end.
* The static buffer `opt_lzma` (line 468) is written in place by the preset
  degradation loop while `opt_filters[0].options` points at it.  The pointer is
  modelled by `OptRef.lzmaBuf`, resolved against the current buffer contents by
  `derefChain`.
-/

deriving instance DecidableEq for Except

namespace Args

/-- `enum tool_mode` (private.h, used at args.c line 28). -/
inductive ToolMode
  | COMPRESS
  | DECOMPRESS
  | LIST
  | TEST
  deriving DecidableEq, Repr

/-- `enum format_type` (private.h, used at args.c line 29). -/
inductive FormatType
  | AUTO
  | XZ
  | LZMA
  | RAW
  deriving DecidableEq, Repr

/-- `lzma_check` values accepted by the `--check` table (args.c lines 353-361). -/
inductive CheckType
  | NONE
  | CRC32
  | CRC64
  | SHA256
  deriving DecidableEq, Repr

/-- The liblzma filter identifiers used by args.c (`LZMA_FILTER_*`). -/
inductive FilterId
  | SUBBLOCK
  | X86
  | POWERPC
  | IA64
  | ARM
  | ARMTHUMB
  | SPARC
  | DELTA
  | LZMA1
  | LZMA2
  deriving DecidableEq, Repr

/-- Resolved, opaque filter options blobs.
`presetOpts level` is the content `lzma_lzma_preset` (liblzma, external) writes
for the given level; `fromParser id arg` is the result of the filter-specific
options parsers of options.c (external); `noOptions` is a NULL options pointer;
`uninit` is the zero-initialized static `opt_lzma` buffer before first use. -/
inductive FilterOptions
  | uninit
  | noOptions
  | presetOpts (level : Nat)
  | fromParser (id : FilterId) (arg : Option String)
  deriving DecidableEq, Repr

/-- The `options` pointer stored in an `opt_filters` entry: NULL, a pointer to
the static `opt_lzma` buffer (args.c lines 468, 478), or a heap blob returned
by an options parser (args.c lines 140-161). -/
inductive OptRef
  | null
  | lzmaBuf
  | direct (o : FilterOptions)
  deriving DecidableEq, Repr

/-- One entry of the `opt_filters` array: `lzma_filter = { id, options }`. -/
abbrev FilterEntry := FilterId × OptRef

/-- A filter entry with its options pointer dereferenced; the argument type of
the memory-usage cost models `lzma_memusage_encoder` / `_decoder`. -/
abbrev DFilter := FilterId × FilterOptions

/-- Fatal process terminations: `my_exit(ERROR)` sites plus the two terminal
success actions `show_help` / `show_version`. -/
inductive Fatal
  | tooManyFilters
  | invalidSuffix
  | unknownFileFormat
  | unknownCheckType
  | filesRepeated
  | showHelp
  | showVersion
  | usageError
  | internalError
  | memLimitTooSmallPreset
  | memLimitTooSmallFilters
  | aloneFormatNeedsLzma1
  | envTooManyArgs
  deriving DecidableEq, Repr

/-- Verbosity floor: `V_SILENT` of the message module (outside src/).
Modelled from the spec: a bounded integer level clamped to the silent floor and
debug ceiling; the concrete numbers only fix the distance between the bounds. -/
def V_SILENT : Int := 0

/-- Verbosity ceiling `V_DEBUG`; see `V_SILENT`. -/
def V_DEBUG : Int := 4

/-- `LZMA_BLOCK_FILTERS_MAX` (liblzma header): maximum chain length checked at
args.c line 133. -/
def LZMA_BLOCK_FILTERS_MAX : Nat := 7

/-- `INT_MAX`, the bound checked against the environment argument count
(args.c line 433). -/
def INT_MAX : Nat := 2 ^ 31 - 1

/-- `stdin_filename` (args.c line 47). -/
def stdin_filename : String := "(stdin)"

/-- The file-scope state of args.c (lines 28-57) plus the two externs it
mutates (`opt_memory`, `opt_threads`, `verbosity`, declared outside src/).
`opt_files_file` (an open `FILE *`) is external I/O and is not carried;
`opt_files_name` keeps the mutual-exclusion logic observable. -/
structure Coder where
  opt_mode : ToolMode
  opt_format : FormatType
  opt_suffix : Option String
  opt_files_name : Option String
  opt_files_split : Char
  opt_stdout : Bool
  opt_force : Bool
  opt_keep_original : Bool
  opt_preserve_name : Bool
  opt_check : CheckType
  opt_memory : Nat
  opt_threads : Nat
  verbosity : Int
  preset_number : Nat
  preset_default : Bool
  opt_filters : List FilterEntry
  opt_lzma : FilterOptions
  format_compress_auto : FormatType
  deriving DecidableEq, Repr

/-- Initial state: the initializers of args.c lines 28-57 (`MODE_COMPRESS`,
`FORMAT_AUTO`, `LZMA_CHECK_CRC64`, preset 7 with `preset_default = true`, empty
chain, `format_compress_auto = FORMAT_XZ`).  The defaults of the externs
`opt_memory`, `opt_threads` and `verbosity` are set outside src/ (by main), so
they are parameters here. -/
def initCoder (mem threads : Nat) (verb : Int) : Coder where
  opt_mode := ToolMode.COMPRESS
  opt_format := FormatType.AUTO
  opt_suffix := none
  opt_files_name := none
  opt_files_split := '\x00'
  opt_stdout := false
  opt_force := false
  opt_keep_original := false
  opt_preserve_name := false
  opt_check := CheckType.CRC64
  opt_memory := mem
  opt_threads := threads
  verbosity := verb
  preset_number := 7
  preset_default := true
  opt_filters := []
  opt_lzma := FilterOptions.uninit
  format_compress_auto := FormatType.XZ

/-- The options blob attached by `add_filter`'s switch (args.c lines 140-161):
sub-block, delta and LZMA1/LZMA2 run an external options parser on the raw
string; the simple transform filters assert a NULL string and store NULL. -/
def parse_filter_options (id : FilterId) (arg : Option String) : OptRef :=
  match id with
  | FilterId.SUBBLOCK => OptRef.direct (FilterOptions.fromParser id arg)
  | FilterId.DELTA => OptRef.direct (FilterOptions.fromParser id arg)
  | FilterId.LZMA1 => OptRef.direct (FilterOptions.fromParser id arg)
  | FilterId.LZMA2 => OptRef.direct (FilterOptions.fromParser id arg)
  | _ => OptRef.null

/-- `add_filter` (args.c lines 130-166): reject an eighth filter, append the
entry, clear `preset_default`. -/
def add_filter (s : Coder) (id : FilterId) (arg : Option String) : Except Fatal Coder :=
  if s.opt_filters.length = LZMA_BLOCK_FILTERS_MAX then
    Except.error Fatal.tooManyFilters
  else
    Except.ok { s with
      opt_filters := s.opt_filters ++ [(id, parse_filter_options id arg)],
      preset_default := false }

/-- One recognized option, i.e. one `case` of the switch in `parse_real`
(args.c lines 176-409).  `preset d` is the digit case `'1'..'9'` with
`d = c - '0'`; `memory`/`threads` carry the value already validated by the
external `str_to_uint64`; `format`/`checkKind` carry the raw `optarg` string,
matched against the in-function tables; `unknownOpt` is getopt's `'?'` which
lands in the `default:` label. -/
inductive CliOpt
  | preset (d : Nat)
  | memory (n : Nat)
  | preserveName
  | suffixOpt (str : String)
  | threads (n : Nat)
  | version
  | stdoutFlag
  | decompress
  | force
  | help
  | listMode
  | keep
  | noName
  | quiet
  | testMode
  | verbose
  | compress
  | filterFlag (id : FilterId) (arg : Option String)
  | formatOpt (str : String)
  | checkKind (str : String)
  | files (arg : Option String)
  | files0 (arg : Option String)
  | unknownOpt
  deriving DecidableEq, Repr

/-- The `--format` lookup table (args.c lines 324-335). -/
def format_types : List (String × FormatType) :=
  [("auto", FormatType.AUTO), ("xz", FormatType.XZ), ("lzma", FormatType.LZMA),
   ("alone", FormatType.LZMA), ("raw", FormatType.RAW)]

/-- The `--check` lookup table (args.c lines 353-361). -/
def check_types : List (String × CheckType) :=
  [("none", CheckType.NONE), ("crc32", CheckType.CRC32),
   ("crc64", CheckType.CRC64), ("sha256", CheckType.SHA256)]

/-- The shared tail of the `--files` / `--files0` cases (args.c lines 382-404):
reject a second file list, then record the name (or stdin).  The `fopen` call
and its failure path are external I/O and are not modelled. -/
def files_case (s : Coder) (arg : Option String) : Except Fatal Coder :=
  if s.opt_files_name.isSome then
    Except.error Fatal.filesRepeated
  else
    match arg with
    | none => Except.ok { s with opt_files_name := some stdin_filename }
    | some name => Except.ok { s with opt_files_name := some name }

/-- The body of the option switch in `parse_real` (args.c lines 176-409),
for one recognized option. -/
def parse_real_step (s : Coder) (c : CliOpt) : Except Fatal Coder :=
  match c with
  | CliOpt.preset d =>
      Except.ok { s with preset_number := d, preset_default := false }
  | CliOpt.memory n => Except.ok { s with opt_memory := n }
  | CliOpt.preserveName => Except.ok { s with opt_preserve_name := true }
  | CliOpt.suffixOpt str =>
      if str = "" ∨ str.contains '/' then Except.error Fatal.invalidSuffix
      else Except.ok { s with opt_suffix := some str }
  | CliOpt.threads n => Except.ok { s with opt_threads := n }
  | CliOpt.version => Except.error Fatal.showVersion
  | CliOpt.stdoutFlag => Except.ok { s with opt_stdout := true }
  | CliOpt.decompress => Except.ok { s with opt_mode := ToolMode.DECOMPRESS }
  | CliOpt.force => Except.ok { s with opt_force := true }
  | CliOpt.help => Except.error Fatal.showHelp
  | CliOpt.listMode => Except.ok { s with opt_mode := ToolMode.LIST }
  | CliOpt.keep => Except.ok { s with opt_keep_original := true }
  | CliOpt.noName => Except.ok { s with opt_preserve_name := false }
  | CliOpt.quiet =>
      Except.ok { s with
        verbosity := if V_SILENT < s.verbosity then s.verbosity - 1 else s.verbosity }
  | CliOpt.testMode => Except.ok { s with opt_mode := ToolMode.TEST }
  | CliOpt.verbose =>
      Except.ok { s with
        verbosity := if s.verbosity < V_DEBUG then s.verbosity + 1 else s.verbosity }
  | CliOpt.compress => Except.ok { s with opt_mode := ToolMode.COMPRESS }
  | CliOpt.filterFlag id arg => add_filter s id arg
  | CliOpt.formatOpt str =>
      match format_types.lookup str with
      | some f => Except.ok { s with opt_format := f }
      | none => Except.error Fatal.unknownFileFormat
  | CliOpt.checkKind str =>
      match check_types.lookup str with
      | some k => Except.ok { s with opt_check := k }
      | none => Except.error Fatal.unknownCheckType
  | CliOpt.files arg => files_case { s with opt_files_split := '\n' } arg
  | CliOpt.files0 arg => files_case s arg
  | CliOpt.unknownOpt => Except.error Fatal.usageError

/-- The getopt loop of `parse_real` (args.c lines 174-410): fold the option
switch over the recognized options in order; a fatal case stops everything. -/
def parse_real : Coder → List CliOpt → Except Fatal Coder
  | s, [] => Except.ok s
  | s, c :: rest =>
    match parse_real_step s c with
    | Except.error e => Except.error e
    | Except.ok s' => parse_real s' rest

/-- `lzma_lzma_preset` (liblzma, external collaborator).
Modelled from the spec: presets span the integer levels 1-9 ("Preset: integer
level 1-9"); for a supported level it fills the options structure with the
canonical options of that level (an opaque token here) and reports success
(C false); any other argument reports failure (C true), which args.c turns
into a fatal internal error. -/
def lzma_lzma_preset (level : Nat) : Option FilterOptions :=
  if 1 ≤ level ∧ level ≤ 9 then some (FilterOptions.presetOpts level) else none

/-- Resolve one stored options pointer against the current contents of the
static `opt_lzma` buffer. -/
def derefOpt (buf : FilterOptions) : OptRef → FilterOptions
  | OptRef.null => FilterOptions.noOptions
  | OptRef.lzmaBuf => buf
  | OptRef.direct o => o

/-- The filter chain as the external cost models see it: every entry's options
pointer dereferenced (entries pointing at `opt_lzma` see the buffer value). -/
def derefChain (buf : FilterOptions) (chain : List FilterEntry) : List DFilter :=
  chain.map fun e => (e.1, derefOpt buf e.2)

/-- Default-chain synthesis, step one of `set_compression_settings`
(args.c lines 470-480): with an empty chain, build the preset options into
`opt_lzma`, install a single filter whose id is LZMA1 for the legacy
`--format=lzma` and LZMA2 otherwise, and set `filter_count = 1`.
A failing `lzma_lzma_preset` is the fatal internal error of line 472. -/
def synthesize_default (s : Coder) : Except Fatal Coder :=
  if s.opt_filters.length = 0 then
    match lzma_lzma_preset s.preset_number with
    | none => Except.error Fatal.internalError
    | some opts =>
        Except.ok { s with
          opt_lzma := opts,
          opt_filters :=
            [(if s.opt_format = FormatType.LZMA then FilterId.LZMA1 else FilterId.LZMA2,
              OptRef.lzmaBuf)] }
  else Except.ok s

/-- The preset degradation loop of `set_compression_settings`
(args.c lines 503-518), written as structural recursion on the preset level:

    while (memory_usage > opt_memory) {
        if (preset_number == 1) fatal("Memory usage limit is too small ...");
        if (lzma_lzma_preset(&opt_lzma, --preset_number)) fatal("Internal error");
        memory_usage = lzma_memusage_encoder(opt_filters);
    }

The three match arms are the three possible values of the size_t
`preset_number` at the top of an iteration: level `p + 2` decrements to
`p + 1` (where `lzma_lzma_preset` succeeds, `p + 1` being in 1..9 whenever the
level came from a preset flag or the default 7), level 1 is the fatal
"too small for any preset" exit, and level 0 - unreachable from the parser -
would wrap the size_t decrement to `SIZE_MAX`, which `lzma_lzma_preset`
rejects, giving the fatal internal error of line 513.  Note the recomputation
at line 517 always uses the ENCODER cost model.  Returns the final
`(preset_number, opt_lzma, memory_usage)`. -/
def degradeLoop (memEnc : List DFilter → Nat) (chain : List FilterEntry) (budget : Nat) :
    Nat → FilterOptions → Nat → Except Fatal (Nat × FilterOptions × Nat)
  | 0, buf, usage =>
      if budget < usage then Except.error Fatal.internalError
      else Except.ok (0, buf, usage)
  | 1, buf, usage =>
      if budget < usage then Except.error Fatal.memLimitTooSmallPreset
      else Except.ok (1, buf, usage)
  | p + 2, buf, usage =>
      if budget < usage then
        match lzma_lzma_preset (p + 1) with
        | some opts =>
            degradeLoop memEnc chain budget (p + 1) opts
              (memEnc (derefChain opts chain))
        | none => Except.error Fatal.internalError
      else Except.ok (p + 2, buf, usage)

/-- Thread-count capping (args.c lines 533-541): `thread_limit` is the budget
divided by the final per-instance memory usage, floored at one; the requested
count is lowered to it when larger.  (Line 535 asserts `memory_usage > 0`;
the assert has no run-time effect.) -/
def thread_cap (budget usage threads : Nat) : Nat :=
  let thread_limit := budget / usage
  let thread_limit := if thread_limit = 0 then 1 else thread_limit
  if thread_limit < threads then thread_limit else threads

/-- `set_compression_settings` (args.c lines 465-544).  The two cost models
`lzma_memusage_encoder` / `lzma_memusage_decoder` are external collaborators,
passed as parameters.  Steps: default-chain synthesis; (implicit) sentinel
termination; LZMA_Alone single-LZMA1 validation (lines 487-492); initial
memory estimate picked by operation mode (lines 497-499); budget
reconciliation - the degradation loop on the default path, a hard failure
otherwise (lines 503-531); thread capping (lines 533-541). -/
def set_compression_settings (memEnc memDec : List DFilter → Nat) (s0 : Coder) :
    Except Fatal Coder :=
  match synthesize_default s0 with
  | Except.error e => Except.error e
  | Except.ok s =>
    if s.opt_format = FormatType.LZMA ∧ (s.opt_filters.length ≠ 1 ∨
        s.opt_filters.head?.map Prod.fst ≠ some FilterId.LZMA1) then
      Except.error Fatal.aloneFormatNeedsLzma1
    else
      let memory_usage :=
        (if s.opt_mode = ToolMode.COMPRESS then memEnc else memDec)
          (derefChain s.opt_lzma s.opt_filters)
      if s.preset_default then
        match degradeLoop memEnc s.opt_filters s.opt_memory s.preset_number s.opt_lzma
            memory_usage with
        | Except.error e => Except.error e
        | Except.ok (p, buf, usage) =>
            Except.ok { s with
              preset_number := p, opt_lzma := buf,
              opt_threads := thread_cap s.opt_memory usage s.opt_threads }
      else
        if s.opt_memory < memory_usage then
          Except.error Fatal.memLimitTooSmallFilters
        else
          Except.ok { s with
            opt_threads := thread_cap s.opt_memory memory_usage s.opt_threads }

/-- C `isspace` in the POSIX locale, as used by `parse_environment`
(args.c lines 429, 449). -/
def c_isspace (c : Char) : Bool :=
  c = ' ' || c = '\t' || c = '\n' || c = '\x0b' || c = '\x0c' || c = '\r'

/-- The counting loop of `parse_environment` (args.c lines 426-440): number of
whitespace-separated token starts, tracking `prev_was_space` (initially true). -/
def env_count_tokens : List Char → Bool → Nat
  | [], _ => 0
  | c :: rest, prev =>
    if c_isspace c then env_count_tokens rest true
    else if prev then 1 + env_count_tokens rest false
    else env_count_tokens rest false

/-- The filling loop of `parse_environment` (args.c lines 446-455): the
pointers `env + i` stored at token starts.  A pointer into the duplicated
environment string is modelled as the suffix starting there; the loop does not
write a NUL at token ends, so as C strings the stored arguments read to the
end of the environment value. -/
def env_token_pointers : List Char → Bool → List (List Char)
  | [], _ => []
  | c :: rest, prev =>
    if c_isspace c then env_token_pointers rest true
    else if prev then (c :: rest) :: env_token_pointers rest false
    else env_token_pointers rest false

/-- The argument-vector construction of `parse_environment`
(args.c lines 419-455), for a set environment value `env` (a C string,
modelled as its character list): fatal when the argument count would exceed
`INT_MAX` (line 433); otherwise `argv[0] = argv0`, `argv[argc] = NULL`
(modelled as `none`), and slots 1.. hold the token-start pointers.
The subsequent `parse_real` call goes through the external getopt. -/
def parse_environment_argv (argv0 env : List Char) :
    Except Fatal (List (Option (List Char))) :=
  if 1 + env_count_tokens env true > INT_MAX then Except.error Fatal.envTooManyArgs
  else
    Except.ok ((some argv0 :: (env_token_pointers env true).map some) ++ [none])

/-- `strstr(name, needle) != NULL` (C library): does `needle` occur in
`name`? -/
def strstr_contains (name needle : List Char) : Bool :=
  name.tails.any fun t => needle.isPrefixOf t

/-- The invocation-name block of `parse_args` (args.c lines 550-566): a name
containing "lz" selects the legacy format as the automatic compression format;
"cat" forces decompress-to-stdout; otherwise "un" forces decompress.
`str_filename` (external) may fail, giving `none`. -/
def apply_argv0_name (name : Option (List Char)) (s : Coder) : Coder :=
  match name with
  | none => s
  | some n =>
    let s :=
      if strstr_contains n ['l', 'z'] then
        { s with format_compress_auto := FormatType.LZMA }
      else s
    if strstr_contains n ['c', 'a', 't'] then
      { s with opt_mode := ToolMode.DECOMPRESS, opt_stdout := true }
    else if strstr_contains n ['u', 'n'] then
      { s with opt_mode := ToolMode.DECOMPRESS }
    else s

/-- `parse_args` (args.c lines 547-597): invocation-name defaults, the
environment pass (its tokenization is `parse_environment_argv`; the option
stream getopt extracts from that vector is the `envOpts` parameter), the
command-line pass, the stdout/test fixup (lines 578-581), resolution of
`FORMAT_AUTO` (lines 583-584), and `set_compression_settings` when compressing
or when the format is raw (lines 586-587).  The trailing positional-filename /
stdin substitution (lines 589-596) concerns the argv tail, not the
configuration record, and is left to the caller. -/
def parse_args (memEnc memDec : List DFilter → Nat) (name : Option (List Char))
    (envOpts cliOpts : List CliOpt) (s0 : Coder) : Except Fatal Coder :=
  match parse_real (apply_argv0_name name s0) envOpts with
  | Except.error e => Except.error e
  | Except.ok s1 =>
    match parse_real s1 cliOpts with
    | Except.error e => Except.error e
    | Except.ok s2 =>
      let s3 :=
        if s2.opt_stdout = true ∨ s2.opt_mode = ToolMode.TEST then
          { s2 with opt_keep_original := true, opt_stdout := true }
        else s2
      let s4 :=
        if s3.opt_mode = ToolMode.COMPRESS ∧ s3.opt_format = FormatType.AUTO then
          { s3 with opt_format := s3.format_compress_auto }
        else s3
      if s4.opt_mode = ToolMode.COMPRESS ∨ s4.opt_format = FormatType.RAW then
        set_compression_settings memEnc memDec s4
      else Except.ok s4

/-- A concrete cost model used to evaluate the resolver on specific inputs:
a single preset-backed filter at level `q` costs `10 * q` units; any other
chain costs 1000. -/
def memDemo : List DFilter → Nat
  | [(_, FilterOptions.presetOpts q)] => 10 * q
  | _ => 1000

/-- A constant encoder cost model (5 units) for exercising the mode dependence
of the resolver's estimates. -/
def memEncC4 : List DFilter → Nat := fun _ => 5

/-- A constant decoder cost model (100 units); always over the 10-unit budget
used with it. -/
def memDecC4 : List DFilter → Nat := fun _ => 100

/-- A decoder cost model agreeing with `memDecC4` on the level-7 single-filter
chain and differing everywhere else. -/
def memDecC4' : List DFilter → Nat := fun l =>
  if l = [(FilterId.LZMA2, FilterOptions.presetOpts 7)] then 100 else 999

/-- A raw-format decompression state over a 10-unit budget, on the default
path. -/
def sC4 : Coder :=
  { initCoder 10 4 2 with opt_mode := ToolMode.DECOMPRESS, opt_format := FormatType.RAW }

/-- A legacy-format state whose chain is the single explicit LZMA2 filter. -/
def sAloneLzma2 : Coder :=
  { initCoder 100 4 2 with
    opt_format := FormatType.LZMA,
    opt_filters := [(FilterId.LZMA2,
      OptRef.direct (FilterOptions.fromParser FilterId.LZMA2 none))],
    preset_default := false }

/-- Claim C3: the effective thread count computed at args.c lines 533-541
equals `min(requested, max(1, floor(budget / usage)))` for every requested
count `t ≥ 1` and positive per-instance usage `U`; it never exceeds the
request, and a request of 1 is always honored. -/
theorem claim_C3 (t B U : Nat) (ht : 1 ≤ t) (hU : 0 < U) :
    thread_cap B U t = min t (max 1 (B / U)) ∧ thread_cap B U t ≤ t ∧
      (t = 1 → thread_cap B U t = 1) := by
  refine ⟨?_, ?_, ?_⟩ <;>
    · simp only [thread_cap, Nat.min_def, Nat.max_def]
      generalize B / U = L
      split_ifs <;> omega

/-- Witness for C3 at `t = 4`, `B = 100`, `U = 30`. -/
theorem claim_C3_witness :
    thread_cap 100 30 4 = min 4 (max 1 (100 / 30)) ∧ thread_cap 100 30 4 ≤ 4 ∧
      (4 = 1 → thread_cap 100 30 4 = 1) :=
  claim_C3 4 100 30 (by decide) (by decide)

/-- Claim C5: with an empty chain and a preset level 1-9, default-chain
synthesis (args.c lines 470-480) succeeds and installs exactly one filter -
LZMA1 when the target format is the legacy `--format=lzma`, LZMA2 otherwise -
whose dereferenced options are the canonical preset options of that level, and
it leaves the default mark (`preset_default`, the degradation eligibility)
unchanged. -/
theorem claim_C5 (s : Coder) (hempty : s.opt_filters = [])
    (h1 : 1 ≤ s.preset_number) (h9 : s.preset_number ≤ 9) :
    ∃ s', synthesize_default s = Except.ok s' ∧
      s'.opt_filters =
        [(if s.opt_format = FormatType.LZMA then FilterId.LZMA1 else FilterId.LZMA2,
          OptRef.lzmaBuf)] ∧
      derefChain s'.opt_lzma s'.opt_filters =
        [(if s.opt_format = FormatType.LZMA then FilterId.LZMA1 else FilterId.LZMA2,
          FilterOptions.presetOpts s.preset_number)] ∧
      s'.preset_default = s.preset_default := by
  have hlen : s.opt_filters.length = 0 := by rw [hempty]; rfl
  have hpres : lzma_lzma_preset s.preset_number =
      some (FilterOptions.presetOpts s.preset_number) := by
    unfold lzma_lzma_preset
    rw [if_pos ⟨h1, h9⟩]
  refine ⟨{ s with
      opt_lzma := FilterOptions.presetOpts s.preset_number,
      opt_filters :=
        [(if s.opt_format = FormatType.LZMA then FilterId.LZMA1 else FilterId.LZMA2,
          OptRef.lzmaBuf)] }, ?_, rfl, ?_, rfl⟩
  · unfold synthesize_default
    rw [if_pos hlen, hpres]
  · simp [derefChain, derefOpt]

/-- Witness for C5: level 7 with the xz format on the initial state. -/
theorem claim_C5_witness :
    (initCoder 100 4 2).opt_filters = [] ∧
    1 ≤ (initCoder 100 4 2).preset_number ∧ (initCoder 100 4 2).preset_number ≤ 9 ∧
    ∃ s', synthesize_default (initCoder 100 4 2) = Except.ok s' ∧
      s'.opt_filters =
        [(if (initCoder 100 4 2).opt_format = FormatType.LZMA then FilterId.LZMA1
            else FilterId.LZMA2, OptRef.lzmaBuf)] ∧
      derefChain s'.opt_lzma s'.opt_filters =
        [(if (initCoder 100 4 2).opt_format = FormatType.LZMA then FilterId.LZMA1
            else FilterId.LZMA2,
          FilterOptions.presetOpts (initCoder 100 4 2).preset_number)] ∧
      s'.preset_default = (initCoder 100 4 2).preset_default :=
  ⟨rfl, by decide, by decide,
    claim_C5 (initCoder 100 4 2) rfl (by decide) (by decide)⟩

/-- Claim C7: evaluation of the environment argument-vector construction at
the value `"-q -v"` with program name `"lzma"`: slot 0 is the program name
and the vector ends in the terminating marker as the claim says, but - the
tokens never being NUL-terminated - slot 1 is the whole remaining string
`"-q -v"`, not the single token `"-q"` the claim (and the tokenizing intent
of the counting loop) requires. -/
theorem claim_C7_eval :
    parse_environment_argv ['l', 'z', 'm', 'a'] ['-', 'q', ' ', '-', 'v'] =
      Except.ok [some ['l', 'z', 'm', 'a'], some ['-', 'q', ' ', '-', 'v'],
        some ['-', 'v'], none] ∧
    ['-', 'q', ' ', '-', 'v'] ≠ ['-', 'q'] := by
  constructor
  · unfold parse_environment_argv
    rw [if_neg (by decide)]
    rfl
  · decide

/-- The degradation loop can only terminate the process with the
"too small for any preset" message (args.c line 506) or the internal
`lzma_lzma_preset` failure (line 513). -/
theorem degradeLoop_error_codes (memEnc : List DFilter → Nat) (chain : List FilterEntry)
    (budget : Nat) :
    ∀ (p : Nat) (buf : FilterOptions) (u : Nat) (e : Fatal),
    degradeLoop memEnc chain budget p buf u = Except.error e →
    e = Fatal.memLimitTooSmallPreset ∨ e = Fatal.internalError
  | 0, buf, u, e => by
    intro h
    unfold degradeLoop at h
    split at h
    · exact Or.inr (by injection h with h; exact h.symm)
    · simp at h
  | 1, buf, u, e => by
    intro h
    unfold degradeLoop at h
    split at h
    · exact Or.inl (by injection h with h; exact h.symm)
    · simp at h
  | n + 2, buf, u, e => by
    intro h
    unfold degradeLoop at h
    split at h
    · cases hp : lzma_lzma_preset (n + 1) with
      | some opts =>
        rw [hp] at h
        exact degradeLoop_error_codes memEnc chain budget (n + 1) opts _ e h
      | none =>
        rw [hp] at h
        exact Or.inr (by injection h with h; exact h.symm)
    · simp at h

/-- Claim C6: with the legacy `--format=lzma` target and a user-assembled
(nonempty) chain, finalization fails with the single-LZMA1 constraint error
(args.c lines 487-492) exactly when the chain is not one LZMA1 entry; a chain
of exactly one LZMA1 filter always passes that check (later steps may still
fail, but never with this error). -/
theorem claim_C6 (memEnc memDec : List DFilter → Nat) (s : Coder)
    (hfmt : s.opt_format = FormatType.LZMA) (hne : s.opt_filters ≠ []) :
    (s.opt_filters.map Prod.fst ≠ [FilterId.LZMA1] →
      set_compression_settings memEnc memDec s =
        Except.error Fatal.aloneFormatNeedsLzma1) ∧
    (s.opt_filters.map Prod.fst = [FilterId.LZMA1] →
      set_compression_settings memEnc memDec s ≠
        Except.error Fatal.aloneFormatNeedsLzma1) := by
  have hsynth : synthesize_default s = Except.ok s := by
    unfold synthesize_default
    rw [if_neg (by simpa using hne)]
  constructor
  · intro hmap
    unfold set_compression_settings
    rw [hsynth]
    dsimp only
    rw [if_pos]
    refine ⟨hfmt, ?_⟩
    match hl : s.opt_filters with
    | [] => exact absurd hl hne
    | [a] =>
      refine Or.inr ?_
      rw [hl] at hmap
      simpa using fun hid => hmap (by simp [hid])
    | a :: b :: l =>
      refine Or.inl ?_
      simp
  · intro hmap
    obtain ⟨a, hl, hid⟩ : ∃ a, s.opt_filters = [a] ∧ a.1 = FilterId.LZMA1 := by
      match hl : s.opt_filters with
      | [] => exact absurd hl hne
      | [a] =>
        rw [hl] at hmap
        simp at hmap
        exact ⟨a, rfl, hmap⟩
      | a :: b :: l =>
        rw [hl] at hmap
        simp at hmap
    unfold set_compression_settings
    rw [hsynth]
    dsimp only
    rw [if_neg (by simp [hl, hid])]
    split
    · split
      · rename_i e hdeg
        rcases degradeLoop_error_codes memEnc s.opt_filters s.opt_memory
            s.preset_number s.opt_lzma _ e hdeg with h | h <;> simp [h]
      · simp
    · split <;> split <;> simp

/-- Witness for C6: legacy format with the chain `{LZMA2}` is rejected with
the single-LZMA1 error. -/
theorem claim_C6_witness :
    (sAloneLzma2.opt_format = FormatType.LZMA ∧ sAloneLzma2.opt_filters ≠ []) ∧
    set_compression_settings memDemo memDemo sAloneLzma2 =
      Except.error Fatal.aloneFormatNeedsLzma1 :=
  ⟨⟨rfl, by decide⟩,
    (claim_C6 memDemo memDemo sAloneLzma2 rfl (by decide)).1 (by decide)⟩

/-- Saturating verbosity adjustment: a sequence of `-q` / `-v` options keeps
the level inside the silent..debug band (args.c lines 254-269). -/
theorem verbosity_invariant :
    ∀ (ops : List CliOpt) (s : Coder),
    (∀ o ∈ ops, o = CliOpt.quiet ∨ o = CliOpt.verbose) →
    V_SILENT ≤ s.verbosity → s.verbosity ≤ V_DEBUG →
    ∃ s', parse_real s ops = Except.ok s' ∧
      V_SILENT ≤ s'.verbosity ∧ s'.verbosity ≤ V_DEBUG
  | [], s, _, hlo, hhi => ⟨s, rfl, hlo, hhi⟩
  | o :: rest, s, h, hlo, hhi => by
    have hrest : ∀ o ∈ rest, o = CliOpt.quiet ∨ o = CliOpt.verbose :=
      fun o' ho' => h o' (List.mem_cons_of_mem _ ho')
    rcases h o (List.mem_cons_self o rest) with rfl | rfl
    · obtain ⟨s', hr, hlo', hhi'⟩ :=
        verbosity_invariant rest
          { s with verbosity :=
              if V_SILENT < s.verbosity then s.verbosity - 1 else s.verbosity }
          hrest
          (by simp only [V_SILENT, V_DEBUG] at *; split <;> omega)
          (by simp only [V_SILENT, V_DEBUG] at *; split <;> omega)
      exact ⟨s', hr, hlo', hhi'⟩
    · obtain ⟨s', hr, hlo', hhi'⟩ :=
        verbosity_invariant rest
          { s with verbosity :=
              if s.verbosity < V_DEBUG then s.verbosity + 1 else s.verbosity }
          hrest
          (by simp only [V_SILENT, V_DEBUG] at *; split <;> omega)
          (by simp only [V_SILENT, V_DEBUG] at *; split <;> omega)
      exact ⟨s', hr, hlo', hhi'⟩

/-- Claim C8: verbosity is a saturating counter - from any starting level in
the silent..debug band, any sequence of `--quiet` / `--verbose` flags parses
successfully and leaves the level in the band (each `-q` decrements only above
the floor, each `-v` increments only below the ceiling; args.c lines
254-269). -/
theorem claim_C8 (ops : List CliOpt) (s : Coder)
    (hops : ∀ o ∈ ops, o = CliOpt.quiet ∨ o = CliOpt.verbose)
    (hlo : V_SILENT ≤ s.verbosity) (hhi : s.verbosity ≤ V_DEBUG) :
    ∃ s', parse_real s ops = Except.ok s' ∧
      V_SILENT ≤ s'.verbosity ∧ s'.verbosity ≤ V_DEBUG :=
  verbosity_invariant ops s hops hlo hhi

/-- Witness for C8: ten `--quiet` flags from the default-ish level 2. -/
theorem claim_C8_witness :
    (∀ o ∈ List.replicate 10 CliOpt.quiet, o = CliOpt.quiet ∨ o = CliOpt.verbose) ∧
    V_SILENT ≤ (initCoder 100 4 2).verbosity ∧
    (initCoder 100 4 2).verbosity ≤ V_DEBUG ∧
    ∃ s', parse_real (initCoder 100 4 2) (List.replicate 10 CliOpt.quiet) =
        Except.ok s' ∧ V_SILENT ≤ s'.verbosity ∧ s'.verbosity ≤ V_DEBUG :=
  ⟨by decide, by decide, by decide,
    claim_C8 (List.replicate 10 CliOpt.quiet) (initCoder 100 4 2)
      (by decide) (by decide) (by decide)⟩

/-- The state after `-9` alone on the command line, budget 85: preset 9,
explicitly chosen. -/
def sPreset9 : Coder :=
  { initCoder 85 4 2 with preset_number := 9, preset_default := false }

/-- Counterexample to claim C1: the command line `-9` alone (no filter flags),
budget 85.  Level 8 would fit the budget (cost 80), but because the digit flag
cleared `preset_default` (args.c line 182) the resolver takes the explicit
branch (line 526) and fails fatally instead of degrading the preset. -/
theorem claim_C1_counterexample :
    memDemo [(FilterId.LZMA2, FilterOptions.presetOpts 8)] ≤ 85 ∧
    parse_real (initCoder 85 4 2) [CliOpt.preset 9] = Except.ok sPreset9 ∧
    set_compression_settings memDemo memDemo sPreset9 =
      Except.error Fatal.memLimitTooSmallFilters :=
  ⟨by decide, by decide, by decide⟩

/-- On a non-default (explicitly configured) empty-chain state whose
synthesized chain exceeds the budget, the resolver fails fatally with the
"too small for the given filter setup" message (args.c lines 525-531), with
no degradation attempt. -/
theorem scs_explicit_overbudget (memEnc memDec : List DFilter → Nat) (s : Coder)
    (hdef : s.preset_default = false) (hempty : s.opt_filters = [])
    (hd1 : 1 ≤ s.preset_number) (hd9 : s.preset_number ≤ 9)
    (hmode : s.opt_mode = ToolMode.COMPRESS)
    (hover : s.opt_memory <
      memEnc [(if s.opt_format = FormatType.LZMA then FilterId.LZMA1
          else FilterId.LZMA2, FilterOptions.presetOpts s.preset_number)]) :
    set_compression_settings memEnc memDec s =
      Except.error Fatal.memLimitTooSmallFilters := by
  have hpres : lzma_lzma_preset s.preset_number =
      some (FilterOptions.presetOpts s.preset_number) := by
    unfold lzma_lzma_preset
    rw [if_pos ⟨hd1, hd9⟩]
  by_cases hfmt : s.opt_format = FormatType.LZMA
  · simp [hfmt] at hover
    simp [set_compression_settings, synthesize_default, hempty, hpres, hfmt, hdef,
      hmode, derefChain, derefOpt, hover]
  · simp [hfmt] at hover
    simp [set_compression_settings, synthesize_default, hempty, hpres, hfmt, hdef,
      hmode, derefChain, derefOpt, hover]

/-- Claim C1 as amended: a numeric preset flag marks the configuration
explicit (`preset_default = false`, args.c lines 179-183); with no filter
flags the single-filter chain is still synthesized from the chosen level, but
automatic degradation is unavailable - whenever that level's chain exceeds
the budget the resolver fails fatally (args.c lines 525-531), even if a lower
level would fit. -/
theorem claim_C1 (memEnc memDec : List DFilter → Nat) (s s' : Coder) (d : Nat)
    (hparse : parse_real s [CliOpt.preset d] = Except.ok s')
    (hd1 : 1 ≤ d) (hd9 : d ≤ 9)
    (hempty : s'.opt_filters = [])
    (hmode : s'.opt_mode = ToolMode.COMPRESS)
    (hover : s'.opt_memory <
      memEnc [(if s'.opt_format = FormatType.LZMA then FilterId.LZMA1
          else FilterId.LZMA2, FilterOptions.presetOpts d)]) :
    s'.preset_default = false ∧ s'.preset_number = d ∧
    set_compression_settings memEnc memDec s' =
      Except.error Fatal.memLimitTooSmallFilters := by
  have hs' : s' = { s with preset_number := d, preset_default := false } := by
    unfold parse_real parse_real_step at hparse
    dsimp only at hparse
    injection hparse with h
    exact h.symm
  subst hs'
  exact ⟨rfl, rfl,
    scs_explicit_overbudget memEnc memDec _ rfl hempty hd1 hd9 hmode hover⟩

/-- Witness for the amended C1 at `-9`, budget 85 (level 8 would fit). -/
theorem claim_C1_witness :
    sPreset9.preset_default = false ∧ sPreset9.preset_number = 9 ∧
    set_compression_settings memDemo memDemo sPreset9 =
      Except.error Fatal.memLimitTooSmallFilters :=
  claim_C1 memDemo memDemo (initCoder 85 4 2) sPreset9 9 (by decide) (by decide)
    (by decide) (by decide) (by decide) (by decide)

/-- Default-chain synthesis only writes `opt_lzma` and `opt_filters`:
every other configuration field is unchanged. -/
theorem synthesize_default_fields (s s1 : Coder)
    (h : synthesize_default s = Except.ok s1) :
    s1.opt_mode = s.opt_mode ∧ s1.opt_format = s.opt_format ∧
    s1.opt_memory = s.opt_memory ∧ s1.opt_threads = s.opt_threads ∧
    s1.preset_number = s.preset_number ∧ s1.preset_default = s.preset_default ∧
    s1.opt_keep_original = s.opt_keep_original ∧ s1.opt_stdout = s.opt_stdout := by
  unfold synthesize_default at h
  split at h
  · split at h
    · simp at h
    · injection h with h2
      subst h2
      exact ⟨rfl, rfl, rfl, rfl, rfl, rfl, rfl, rfl⟩
  · injection h with h2
    subst h2
    exact ⟨rfl, rfl, rfl, rfl, rfl, rfl, rfl, rfl⟩

/-- A successful `set_compression_settings` never changes `opt_keep_original`
or `opt_stdout` (it only touches the preset, the options buffer and the thread
count). -/
theorem scs_keep_stdout (memEnc memDec : List DFilter → Nat) (s s' : Coder)
    (h : set_compression_settings memEnc memDec s = Except.ok s') :
    s'.opt_keep_original = s.opt_keep_original ∧ s'.opt_stdout = s.opt_stdout := by
  unfold set_compression_settings at h
  cases hs : synthesize_default s with
  | error e =>
    rw [hs] at h
    simp at h
  | ok s1 =>
    rw [hs] at h
    dsimp only at h
    obtain ⟨_, _, _, _, _, _, hk, ho⟩ := synthesize_default_fields s s1 hs
    repeat' split at h
    all_goals
      first
        | exact Except.noConfusion h
        | (injection h with h2; subst h2; exact ⟨hk, ho⟩)

/-- Counterexample to claim C4: raw-format decompression on the default path,
budget 10, decoder cost 100 at every level, encoder cost 5.  The initial
estimate (decoder model) exceeds the budget, so the degradation loop runs -
but its recomputation at line 517 uses the ENCODER model, accepts level 6 and
succeeds, even though the decoder model (which the claim says every
recomputation uses when decompressing) stays at 100 > 10 and would force the
fatal level-1 exit. -/
theorem claim_C4_counterexample :
    set_compression_settings memEncC4 memDecC4 sC4 =
      Except.ok { sC4 with
        preset_number := 6, opt_lzma := FilterOptions.presetOpts 6,
        opt_filters := [(FilterId.LZMA2, OptRef.lzmaBuf)], opt_threads := 2 } ∧
    sC4.opt_mode = ToolMode.DECOMPRESS ∧
    sC4.opt_memory < memDecC4 [(FilterId.LZMA2, FilterOptions.presetOpts 6)] :=
  ⟨by decide, by decide, by decide⟩

/-- Claim C4 as amended: when compressing, the resolver consults only the
encoder cost model; otherwise the decoder model is consulted exactly once, for
the initial estimate of the synthesized chain (args.c lines 497-499), and all
recomputations inside the degradation loop use the encoder model (line 517).
Formally: the result does not depend on the decoder model beyond that single
initial value. -/
theorem claim_C4 (memEnc memDec memDec' : List DFilter → Nat) (s : Coder) :
    (s.opt_mode = ToolMode.COMPRESS →
      set_compression_settings memEnc memDec s =
        set_compression_settings memEnc memDec' s) ∧
    (s.opt_mode ≠ ToolMode.COMPRESS →
      (∀ s1, synthesize_default s = Except.ok s1 →
        memDec (derefChain s1.opt_lzma s1.opt_filters) =
          memDec' (derefChain s1.opt_lzma s1.opt_filters)) →
      set_compression_settings memEnc memDec s =
        set_compression_settings memEnc memDec' s) := by
  constructor
  · intro hmode
    unfold set_compression_settings
    cases hs : synthesize_default s with
    | error e => rfl
    | ok s1 =>
      obtain ⟨hm1, _, _, _, _, _, _, _⟩ := synthesize_default_fields s s1 hs
      dsimp only
      rw [if_pos (hm1.trans hmode), if_pos (hm1.trans hmode)]
  · intro hmode hagree
    unfold set_compression_settings
    cases hs : synthesize_default s with
    | error e => rfl
    | ok s1 =>
      obtain ⟨hm1, _, _, _, _, _, _, _⟩ := synthesize_default_fields s s1 hs
      dsimp only
      rw [hm1, if_neg hmode, if_neg hmode, hagree s1 hs]

/-- Witness for the amended C4: on `sC4` (raw decompression) the two decoder
models `memDecC4` and `memDecC4'` agree on the synthesized level-7 chain and
differ elsewhere, yet the resolver's result is identical. -/
theorem claim_C4_witness :
    sC4.opt_mode ≠ ToolMode.COMPRESS ∧
    set_compression_settings memEncC4 memDecC4 sC4 =
      set_compression_settings memEncC4 memDecC4' sC4 :=
  ⟨by decide,
    (claim_C4 memEncC4 memDecC4 memDecC4' sC4).2 (by decide)
      (by
        intro s1 h
        rw [show synthesize_default sC4 = Except.ok { sC4 with
            opt_lzma := FilterOptions.presetOpts 7,
            opt_filters := [(FilterId.LZMA2, OptRef.lzmaBuf)] } from by decide] at h
        injection h with h2
        subst h2
        decide)⟩

/-- Claim C9: after `parse_args`, if the parsed flags requested stdout mode or
the operation mode is test, then both `opt_keep_original` and `opt_stdout` are
forced to true (args.c lines 578-581), and the later resolution steps never
reset them. -/
theorem claim_C9 (memEnc memDec : List DFilter → Nat) (name : Option (List Char))
    (envOpts cliOpts : List CliOpt) (s0 s1 s2 s' : Coder)
    (h1 : parse_real (apply_argv0_name name s0) envOpts = Except.ok s1)
    (h2 : parse_real s1 cliOpts = Except.ok s2)
    (hreq : s2.opt_stdout = true ∨ s2.opt_mode = ToolMode.TEST)
    (h : parse_args memEnc memDec name envOpts cliOpts s0 = Except.ok s') :
    s'.opt_keep_original = true ∧ s'.opt_stdout = true := by
  unfold parse_args at h
  rw [h1] at h
  dsimp only at h
  rw [h2] at h
  dsimp only at h
  rw [if_pos hreq] at h
  split at h
  · split at h
    · obtain ⟨hk, ho⟩ := scs_keep_stdout _ _ _ _ h
      exact ⟨hk.trans rfl, ho.trans rfl⟩
    · injection h with h2'
      subst h2'
      exact ⟨rfl, rfl⟩
  · split at h
    · obtain ⟨hk, ho⟩ := scs_keep_stdout _ _ _ _ h
      exact ⟨hk.trans rfl, ho.trans rfl⟩
    · injection h with h2'
      subst h2'
      exact ⟨rfl, rfl⟩

/-- The mid-parse state of the C9 witness run: `--test` on the command line. -/
def sC9mid : Coder := { initCoder 100 1 2 with opt_mode := ToolMode.TEST }

/-- The final state of the C9 witness run. -/
def sC9 : Coder :=
  { initCoder 100 1 2 with
    opt_mode := ToolMode.TEST, opt_keep_original := true, opt_stdout := true }

/-- Witness for C9: `--test` alone forces keep-original and stdout mode. -/
theorem claim_C9_witness :
    parse_real (apply_argv0_name none (initCoder 100 1 2)) [] =
      Except.ok (initCoder 100 1 2) ∧
    parse_real (initCoder 100 1 2) [CliOpt.testMode] = Except.ok sC9mid ∧
    (sC9mid.opt_stdout = true ∨ sC9mid.opt_mode = ToolMode.TEST) ∧
    parse_args memDemo memDemo none [] [CliOpt.testMode] (initCoder 100 1 2) =
      Except.ok sC9 ∧
    sC9.opt_keep_original = true ∧ sC9.opt_stdout = true :=
  ⟨by decide, by decide, by decide, by decide,
    claim_C9 memDemo memDemo none [] [CliOpt.testMode] (initCoder 100 1 2)
      (initCoder 100 1 2) sC9mid sC9 (by decide) (by decide) (by decide) (by decide)⟩

/-- Downward scan of the degradation loop, success side: starting at level
`p` (1-9) with the synthesized single-filter chain, if level `q ≤ p` fits the
budget and every level strictly between `q` and `p` (inclusive of `p`) does
not, the loop stops exactly at `q`, with the options buffer resynthesized at
`q` and the memory usage recomputed there. -/
theorem degradeLoop_stops (memEnc : List DFilter → Nat) (id : FilterId) (B : Nat) :
    ∀ (p : Nat), 1 ≤ p → p ≤ 9 → ∀ (q : Nat), 1 ≤ q → q ≤ p →
    memEnc [(id, FilterOptions.presetOpts q)] ≤ B →
    (∀ r, q < r → r ≤ p → B < memEnc [(id, FilterOptions.presetOpts r)]) →
    degradeLoop memEnc [(id, OptRef.lzmaBuf)] B p (FilterOptions.presetOpts p)
        (memEnc [(id, FilterOptions.presetOpts p)]) =
      Except.ok (q, FilterOptions.presetOpts q, memEnc [(id, FilterOptions.presetOpts q)])
  | 0 => fun h => absurd h (by decide)
  | 1 => by
    intro _ _ q hq1 hqp hfit hnofit
    have hq : q = 1 := by omega
    subst hq
    unfold degradeLoop
    rw [if_neg (not_lt.mpr hfit)]
  | n + 2 => by
    intro hp1 hp9 q hq1 hqp hfit hnofit
    by_cases htop : memEnc [(id, FilterOptions.presetOpts (n + 2))] ≤ B
    · have hq : q = n + 2 := by
        by_contra hne
        exact absurd htop
          (not_le.mpr (hnofit (n + 2) (by omega) (by omega)))
      subst hq
      unfold degradeLoop
      rw [if_neg (not_lt.mpr hfit)]
    · have hstep : lzma_lzma_preset (n + 1) =
          some (FilterOptions.presetOpts (n + 1)) := by
        unfold lzma_lzma_preset
        rw [if_pos (by omega)]
      have hqn : q ≤ n + 1 := by
        by_contra hgt
        have hq : q = n + 2 := by omega
        subst hq
        exact htop hfit
      unfold degradeLoop
      rw [if_pos (not_le.mp htop), hstep]
      dsimp only
      exact degradeLoop_stops memEnc id B (n + 1) (by omega) (by omega) q hq1 hqn
        hfit (fun r hr1 hr2 => hnofit r hr1 (by omega))

/-- Downward scan of the degradation loop, fatal side: if every level from the
start `p` down to 1 exceeds the budget, the loop runs down to level 1 and
fails with the "too small for any preset" error. -/
theorem degradeLoop_fatal (memEnc : List DFilter → Nat) (id : FilterId) (B : Nat) :
    ∀ (p : Nat), 1 ≤ p → p ≤ 9 →
    (∀ q, 1 ≤ q → q ≤ p → B < memEnc [(id, FilterOptions.presetOpts q)]) →
    degradeLoop memEnc [(id, OptRef.lzmaBuf)] B p (FilterOptions.presetOpts p)
        (memEnc [(id, FilterOptions.presetOpts p)]) =
      Except.error Fatal.memLimitTooSmallPreset
  | 0 => fun h => absurd h (by decide)
  | 1 => by
    intro _ _ hall
    unfold degradeLoop
    rw [if_pos (hall 1 (by omega) (by omega))]
  | n + 2 => by
    intro hp1 hp9 hall
    have hstep : lzma_lzma_preset (n + 1) =
        some (FilterOptions.presetOpts (n + 1)) := by
      unfold lzma_lzma_preset
      rw [if_pos (by omega)]
    unfold degradeLoop
    rw [if_pos (hall (n + 2) (by omega) (by omega)), hstep]
    dsimp only
    exact degradeLoop_fatal memEnc id B (n + 1) (by omega) (by omega)
      (fun q hq1 hq2 => hall q hq1 (by omega))

/-- Claim C2: on the default path the degradation loop, started at level `p`
(1-9) on the synthesized single-filter chain with that level's usage,
decrements one level at a time recomputing usage each time: it stops at the
largest level `q ≤ p` whose usage fits the budget `B` (every level above `q`
up to `p` exceeding `B`), returning the resynthesized options and recomputed
usage of `q`; and if every level down to 1 exceeds `B` it fails fatally,
never returning an infeasible chain. -/
theorem claim_C2 (memEnc : List DFilter → Nat) (id : FilterId) (B p : Nat)
    (hp1 : 1 ≤ p) (hp9 : p ≤ 9) :
    (∀ q, 1 ≤ q → q ≤ p →
      memEnc [(id, FilterOptions.presetOpts q)] ≤ B →
      (∀ r, q < r → r ≤ p → B < memEnc [(id, FilterOptions.presetOpts r)]) →
      degradeLoop memEnc [(id, OptRef.lzmaBuf)] B p (FilterOptions.presetOpts p)
          (memEnc [(id, FilterOptions.presetOpts p)]) =
        Except.ok (q, FilterOptions.presetOpts q,
          memEnc [(id, FilterOptions.presetOpts q)])) ∧
    ((∀ q, 1 ≤ q → q ≤ p → B < memEnc [(id, FilterOptions.presetOpts q)]) →
      degradeLoop memEnc [(id, OptRef.lzmaBuf)] B p (FilterOptions.presetOpts p)
          (memEnc [(id, FilterOptions.presetOpts p)]) =
        Except.error Fatal.memLimitTooSmallPreset) :=
  ⟨fun q hq1 hqp hfit hnofit =>
      degradeLoop_stops memEnc id B p hp1 hp9 q hq1 hqp hfit hnofit,
    fun hall => degradeLoop_fatal memEnc id B p hp1 hp9 hall⟩

/-- Witness for C2: with per-level cost `10 q` and budget 85, the loop started
at level 9 stops exactly at level 8 (cost 80), and with budget 5 it fails
fatally. -/
theorem claim_C2_witness :
    degradeLoop memDemo [(FilterId.LZMA2, OptRef.lzmaBuf)] 85 9
        (FilterOptions.presetOpts 9) (memDemo [(FilterId.LZMA2, FilterOptions.presetOpts 9)]) =
      Except.ok (8, FilterOptions.presetOpts 8,
        memDemo [(FilterId.LZMA2, FilterOptions.presetOpts 8)]) ∧
    degradeLoop memDemo [(FilterId.LZMA2, OptRef.lzmaBuf)] 5 9
        (FilterOptions.presetOpts 9) (memDemo [(FilterId.LZMA2, FilterOptions.presetOpts 9)]) =
      Except.error Fatal.memLimitTooSmallPreset :=
  ⟨(claim_C2 memDemo FilterId.LZMA2 85 9 (by decide) (by decide)).1 8 (by decide)
      (by decide) (by decide)
      (by
        intro r hr1 hr2
        have hr : r = 9 := by omega
        subst hr
        decide),
    (claim_C2 memDemo FilterId.LZMA2 5 9 (by decide) (by decide)).2
      (by
        intro q hq1 hq2
        interval_cases q <;> decide)⟩

/-- A single option-switch step that is neither a digit preset flag nor a
filter flag leaves `preset_number`, `preset_default` and the filter chain
unchanged. -/
theorem parse_real_step_preserves_preset (s s' : Coder) (o : CliOpt)
    (hnp : ∀ d, o ≠ CliOpt.preset d)
    (hnf : ∀ id a, o ≠ CliOpt.filterFlag id a)
    (h : parse_real_step s o = Except.ok s') :
    s'.preset_number = s.preset_number ∧ s'.preset_default = s.preset_default ∧
      s'.opt_filters = s.opt_filters := by
  cases o <;>
    first
      | exact absurd rfl (hnp _)
      | exact absurd rfl (hnf _ _)
      | (simp only [parse_real_step, files_case] at h
         repeat' split at h
         all_goals
           first
             | exact Except.noConfusion h
             | (injection h with h2; subst h2; exact ⟨rfl, rfl, rfl⟩))

/-- `parse_real` over options containing no preset digit and no filter flag
leaves `preset_number`, `preset_default` and the filter chain unchanged. -/
theorem parse_real_preserves_preset :
    ∀ (ops : List CliOpt) (s s' : Coder),
    (∀ o ∈ ops, (∀ d, o ≠ CliOpt.preset d) ∧ (∀ id a, o ≠ CliOpt.filterFlag id a)) →
    parse_real s ops = Except.ok s' →
    s'.preset_number = s.preset_number ∧ s'.preset_default = s.preset_default ∧
      s'.opt_filters = s.opt_filters
  | [], s, s', _, h => by
    unfold parse_real at h
    injection h with h2
    subst h2
    exact ⟨rfl, rfl, rfl⟩
  | o :: rest, s, s', hno, h => by
    unfold parse_real at h
    cases hstep : parse_real_step s o with
    | error e =>
      rw [hstep] at h
      exact Except.noConfusion h
    | ok s1 =>
      rw [hstep] at h
      dsimp only at h
      obtain ⟨h1, h2, h3⟩ := parse_real_step_preserves_preset s s1 o
        (hno o (List.mem_cons_self o rest)).1 (hno o (List.mem_cons_self o rest)).2
        hstep
      obtain ⟨g1, g2, g3⟩ := parse_real_preserves_preset rest s1 s'
        (fun o' ho' => hno o' (List.mem_cons_of_mem _ ho')) h
      exact ⟨g1.trans h1, g2.trans h2, g3.trans h3⟩

/-- The invocation-name defaulter never touches the preset or the chain. -/
theorem argv0_preserves_preset (name : Option (List Char)) (s : Coder) :
    (apply_argv0_name name s).preset_number = s.preset_number ∧
    (apply_argv0_name name s).preset_default = s.preset_default ∧
    (apply_argv0_name name s).opt_filters = s.opt_filters := by
  cases name with
  | none => exact ⟨rfl, rfl, rfl⟩
  | some n =>
    unfold apply_argv0_name
    dsimp only
    split_ifs <;> exact ⟨rfl, rfl, rfl⟩

/-- Claim C10: starting from the initial state (preset 7, default mark set,
empty chain - args.c lines 49-51), if neither the environment pass nor the
command-line pass contains a digit preset flag or a filter flag, the state
reaching the resolver still has preset 7, the default mark, and an empty
chain, so default-chain synthesis builds the level-7 options. -/
theorem claim_C10 (name : Option (List Char)) (envOpts cliOpts : List CliOpt)
    (mem threads : Nat) (verb : Int) (s1 s2 : Coder)
    (hno : ∀ o ∈ envOpts ++ cliOpts,
      (∀ d, o ≠ CliOpt.preset d) ∧ (∀ id a, o ≠ CliOpt.filterFlag id a))
    (h1 : parse_real (apply_argv0_name name (initCoder mem threads verb)) envOpts =
      Except.ok s1)
    (h2 : parse_real s1 cliOpts = Except.ok s2) :
    s2.preset_number = 7 ∧ s2.preset_default = true ∧ s2.opt_filters = [] ∧
    synthesize_default s2 = Except.ok { s2 with
      opt_lzma := FilterOptions.presetOpts 7,
      opt_filters := [(if s2.opt_format = FormatType.LZMA then FilterId.LZMA1
          else FilterId.LZMA2, OptRef.lzmaBuf)] } := by
  obtain ⟨a1, a2, a3⟩ := argv0_preserves_preset name (initCoder mem threads verb)
  obtain ⟨b1, b2, b3⟩ := parse_real_preserves_preset envOpts _ s1
    (fun o ho => hno o (List.mem_append_left _ ho)) h1
  obtain ⟨c1, c2, c3⟩ := parse_real_preserves_preset cliOpts s1 s2
    (fun o ho => hno o (List.mem_append_right _ ho)) h2
  have hp : s2.preset_number = 7 := by rw [c1, b1, a1]; exact rfl
  have hd : s2.preset_default = true := by rw [c2, b2, a2]; exact rfl
  have hf : s2.opt_filters = [] := by rw [c3, b3, a3]; exact rfl
  refine ⟨hp, hd, hf, ?_⟩
  unfold synthesize_default
  rw [if_pos (by rw [hf]; rfl), hp]
  rfl

/-- The mid states of the C10 witness run: `-v` in the environment, `-k` on
the command line. -/
def sC10a : Coder := { initCoder 100 4 2 with verbosity := 3 }

/-- Final parsed state of the C10 witness run. -/
def sC10b : Coder :=
  { initCoder 100 4 2 with verbosity := 3, opt_keep_original := true }

/-- Witness for C10: environment `-v`, command line `-k`: preset stays 7 and
synthesis builds the level-7 single-filter chain. -/
theorem claim_C10_witness :
    parse_real (apply_argv0_name none (initCoder 100 4 2)) [CliOpt.verbose] =
      Except.ok sC10a ∧
    parse_real sC10a [CliOpt.keep] = Except.ok sC10b ∧
    (sC10b.preset_number = 7 ∧ sC10b.preset_default = true ∧
      sC10b.opt_filters = [] ∧
      synthesize_default sC10b = Except.ok { sC10b with
        opt_lzma := FilterOptions.presetOpts 7,
        opt_filters := [(if sC10b.opt_format = FormatType.LZMA then FilterId.LZMA1
            else FilterId.LZMA2, OptRef.lzmaBuf)] }) :=
  ⟨by decide, by decide,
    claim_C10 none [CliOpt.verbose] [CliOpt.keep] 100 4 2 sC10a sC10b
      (by
        intro o ho
        simp only [List.cons_append, List.nil_append, List.mem_cons,
          List.not_mem_nil, or_false] at ho
        rcases ho with rfl | rfl <;>
          exact ⟨fun d h => CliOpt.noConfusion h, fun id a h => CliOpt.noConfusion h⟩)
      (by decide) (by decide)⟩

end Args
